import Mathlib

/-!
Shallow embedding of `src/stepper/mod.rs` from the cacao repository: the
`Stepper` facade wrapping a native `NSStepper` widget, together with the
parts of its external collaborators (`ObjcProperty`, `TargetActionHandler`,
the native widget capability) that its observable behaviour depends on.

Numeric property values travel as exact rationals: the binding itself never
transforms them, and the one place a precision change happens (the
`floatValue` read backing `get_selected_value`) is modelled explicitly by a
round-to-24-bit-significand function.
-/

namespace Cacao

/-- Identifiers of Objective-C objects; the address `0` plays the role of `nil`. -/
abbrev ObjId := Nat

/-- The `nil` object reference. -/
def nilId : ObjId := 0

/-- Objective-C `YES`, as the integer encoding of `BOOL`. -/
def YES : Int := 1

/-- Objective-C `NO`, as the integer encoding of `BOOL`. -/
def NO : Int := 0

/-- Model of `CGRect` (origin and size) with exact rational coordinates. -/
structure CGRect where
  x : ℚ
  y : ℚ
  width : ℚ
  height : ℚ
deriving DecidableEq

/-- Model of `Rect::zero()` converted to a `CGRect`: the zero-sized frame
passed to `initWithFrame:` by `Stepper::new`. -/
def Rect.zero : CGRect := ⟨0, 0, 0, 0⟩

/-- State of one native `NSStepper` instance, as observable through the
messages this binding sends and reads. -/
structure NSStepperState where
  frame : CGRect
  translatesAutoresizingMaskIntoConstraints : Int
  maxValue : ℚ
  minValue : ℚ
  increment : ℚ
  valueWraps : Int
  doubleValue : ℚ
  target : ObjId
  action : Option String
deriving DecidableEq

/-- Modelled from the spec: the native widget capability's `alloc` plus
`initWithFrame:` — a fresh widget with the given frame and native default
property values. The spec fixes the default current value at 0.0; views
translate their autoresizing mask by default (the binding must opt out
explicitly); no target or action is installed yet. -/
def initWithFrame (frame : CGRect) : NSStepperState :=
  { frame := frame
    translatesAutoresizingMaskIntoConstraints := YES
    maxValue := 0
    minValue := 0
    increment := 0
    valueWraps := NO
    doubleValue := 0
    target := nilId
    action := none }

/-- The property-setting messages this binding sends to the native stepper. -/
inductive StepperMsg
  | setMaxValue (v : ℚ)
  | setMinValue (v : ℚ)
  | setIncrement (v : ℚ)
  | setValueWraps (b : Int)
  | setTranslatesAutoresizingMaskIntoConstraints (b : Int)
  | setTarget (t : ObjId)
  | setAction (a : Option String)
deriving DecidableEq

/-- Modelled from the spec: the native widget capability's set-property
semantics — each property-setting message stores exactly the value it
carries (the binding validates nothing; any further semantics belongs to
the native toolkit). -/
def sendMsg (o : NSStepperState) : StepperMsg → NSStepperState
  | .setMaxValue v => { o with maxValue := v }
  | .setMinValue v => { o with minValue := v }
  | .setIncrement v => { o with increment := v }
  | .setValueWraps b => { o with valueWraps := b }
  | .setTranslatesAutoresizingMaskIntoConstraints b =>
      { o with translatesAutoresizingMaskIntoConstraints := b }
  | .setTarget t => { o with target := t }
  | .setAction a => { o with action := a }

/-- Modelled from the spec: `ObjcProperty` (crate module `utils::properties`,
not part of this fragment) — a retained, shared handle to the native object
with synchronized `get` / `with_mut` access. The model carries the handle's
address, its retain count, and the state of the object it points to. -/
structure ObjcProperty where
  addr : ObjId
  retainCount : Nat
  obj : NSStepperState
deriving DecidableEq

/-- Modelled from the spec: `ObjcProperty::retain` wraps a native pointer,
retaining it for safe shared access. -/
def ObjcProperty.retain (addr : ObjId) (obj : NSStepperState) : ObjcProperty :=
  ⟨addr, 1, obj⟩

/-- Modelled from the spec: `ObjcProperty::get` — synchronized read-only
access to the native object, side-effect-free from the caller's view. -/
def ObjcProperty.get (p : ObjcProperty) (f : NSStepperState → α) : α :=
  f p.obj

/-- Modelled from the spec: `ObjcProperty::with_mut` — synchronized mutable
access; a whole message sequence is applied atomically, since the accessor
serializes mutations (no two mutations interleave their sends). -/
def ObjcProperty.with_mut (p : ObjcProperty) (msgs : List StepperMsg) : ObjcProperty :=
  { p with obj := msgs.foldl sendMsg p.obj }

/-- A token standing for the user closure handed to `set_action`. -/
abbrev Callback := Nat

/-- Modelled from the spec: `TargetActionHandler` (crate module `invoker`,
not part of this fragment) — a heap-allocated trampoline pairing a user
closure with the native target/action registration. `addr` is its stable
heap address, which the native side stores as a raw back-reference. -/
structure TargetActionHandler where
  addr : Nat
  callback : Callback
deriving DecidableEq

/-- Allocation bookkeeping for trampolines: the next fresh address, the
addresses currently live on the heap, and every address that has been freed
— recorded once per free, so a double free shows up as a duplicate entry. -/
structure TrampWorld where
  next : Nat
  live : List Nat
  freed : List Nat
deriving DecidableEq

/-- The trampoline heap before any trampoline has been allocated. -/
def TrampWorld.init : TrampWorld := ⟨1, [], []⟩

/-- Allocates a fresh trampoline address. -/
def TrampWorld.alloc (w : TrampWorld) : Nat × TrampWorld :=
  (w.next, ⟨w.next + 1, w.next :: w.live, w.freed⟩)

/-- Releases a trampoline: it leaves the live set and is recorded as freed. -/
def TrampWorld.free (w : TrampWorld) (a : Nat) : TrampWorld :=
  ⟨w.next, w.live.erase a, a :: w.freed⟩

/-- The `Stepper` facade: the retained handle to the native widget and the
optional installed trampoline. The autolayout anchor fields of the Rust
struct are pure pass-through wrappers over native constraint objects and
play no part in any behaviour the claims mention, so they are not carried
in the state; the effect the autolayout feature has on the native widget in
`Stepper::new` is modelled by the `autolayout` flag there. -/
structure Stepper where
  objc : ObjcProperty
  handler : Option TargetActionHandler
deriving DecidableEq

/-- Embedding of `Stepper::new`: allocates a native stepper with the
zero-sized frame `Rect::zero()`, sends
`setTranslatesAutoresizingMaskIntoConstraints: NO` exactly when the
`autolayout` feature is compiled in, and retains the resulting non-nil
pointer. Allocation is modelled with an address counter `a`: the allocator
hands out the fresh non-nil address `a + 1`. -/
def Stepper.new (autolayout : Bool) (a : Nat) : Stepper × Nat :=
  let zero : CGRect := Rect.zero
  let addr : ObjId := a + 1
  let o0 := initWithFrame zero
  let o1 :=
    if autolayout then sendMsg o0 (.setTranslatesAutoresizingMaskIntoConstraints NO) else o0
  ({ objc := ObjcProperty.retain addr o1, handler := none }, addr)

/-- Modelled from the spec: `TargetActionHandler::new` (crate module
`invoker`, not part of this fragment) — heap-allocates the trampoline and
installs it as the native object's designated event target, with the
invoker selector as the action. Returns the handler together with the
messages sent to the native object. -/
def TargetActionHandler.new (cb : Callback) (w : TrampWorld) :
    TargetActionHandler × TrampWorld × List StepperMsg :=
  let t := w.alloc
  (⟨t.1, cb⟩, t.2, [.setTarget t.1, .setAction (some "perform:")])

/-- Embedding of `Stepper::set_action`: builds a new trampoline wired to
the native object via `TargetActionHandler::new`, then stores it in the
`handler` field; the Rust assignment `self.handler = Some(handler)` drops
the previous handler, releasing the old trampoline. The temporary retained
`this` pointer is released again when the call returns, so its net effect
is nil and it is not modelled. -/
def Stepper.set_action (s : Stepper) (w : TrampWorld) (cb : Callback) :
    Stepper × TrampWorld × List StepperMsg :=
  let r := TargetActionHandler.new cb w
  let objc1 := s.objc.with_mut r.2.2
  let w2 :=
    match s.handler with
    | none => r.2.1
    | some old => r.2.1.free old.addr
  ({ objc := objc1, handler := some r.1 }, w2, r.2.2)

/-- Embedding of `Stepper::set_max_value`: a single `setMaxValue:` send
through `with_mut`, forwarding the value unchanged. Returns the new facade
state and the exact trace of messages sent. -/
def Stepper.set_max_value (s : Stepper) (v : ℚ) : Stepper × List StepperMsg :=
  ({ s with objc := s.objc.with_mut [.setMaxValue v] }, [.setMaxValue v])

/-- Embedding of `Stepper::set_min_value`: a single `setMinValue:` send
through `with_mut`, forwarding the value unchanged. -/
def Stepper.set_min_value (s : Stepper) (v : ℚ) : Stepper × List StepperMsg :=
  ({ s with objc := s.objc.with_mut [.setMinValue v] }, [.setMinValue v])

/-- Embedding of `Stepper::set_increment`: a single `setIncrement:` send
through `with_mut`, forwarding the value unchanged. -/
def Stepper.set_increment (s : Stepper) (v : ℚ) : Stepper × List StepperMsg :=
  ({ s with objc := s.objc.with_mut [.setIncrement v] }, [.setIncrement v])

/-- Embedding of `Stepper::set_wraps`: a single `setValueWraps:` send
through `with_mut`, the Rust `bool` marshalled to `YES`/`NO`. -/
def Stepper.set_wraps (s : Stepper) (wraps : Bool) : Stepper × List StepperMsg :=
  ({ s with objc := s.objc.with_mut [.setValueWraps (match wraps with | true => YES | false => NO)] },
    [.setValueWraps (match wraps with | true => YES | false => NO)])

/-- Rounds an exact value to the nearest value representable with a 24-bit
significand: scale so the significand lands in the 24-bit range, round,
clamp (the clamp never bites) and rebuild. The exponent range is unbounded
— the standard idealisation for precision statements. Modelled from the
native behaviour the spec assumes: the `floatValue` read returns the stored
double narrowed to single precision. -/
def round32 (q : ℚ) : ℚ :=
  if q = 0 then 0
  else
    let e : ℤ := Int.log 2 |q| - 23
    let m : ℤ := max (-(2 ^ 24)) (min (2 ^ 24) (round (q * (2 : ℚ) ^ (-e))))
    (m : ℚ) * (2 : ℚ) ^ e

/-- Modelled from the spec: the native `floatValue` accessor — the current
value read back as a single-precision floating-point number. -/
def NSStepperState.floatValue (o : NSStepperState) : ℚ :=
  round32 o.doubleValue

/-- Embedding of `Stepper::get_selected_value`: a forwarded read of
`floatValue` through the synchronized `get` accessor. -/
def Stepper.get_selected_value (s : Stepper) : ℚ :=
  s.objc.get (fun o => o.floatValue)

/-- Embedding of `ObjcAccess::get_from_backing_obj` for `Stepper` (the
implementation for `&Stepper` is textually identical): forwards the read to
`objc.get`. -/
def Stepper.get_from_backing_obj (s : Stepper) (f : NSStepperState → α) : α :=
  s.objc.get f

/-- Embedding of `ObjcAccess::with_backing_obj_mut` for `Stepper` (the
implementation for `&Stepper` is textually identical): forwards the sends
to `objc.with_mut`. -/
def Stepper.with_backing_obj_mut (s : Stepper) (msgs : List StepperMsg) : Stepper :=
  { s with objc := s.objc.with_mut msgs }

/-- The panic message of both `add_subview` implementations, with the
surrounding whitespace of the Rust raw string condensed. -/
def addSubviewPanicMsg : String :=
  "Tried to add a subview to a Stepper. This is not allowed in Cacao. If you think this should be supported, open a discussion on the GitHub repo."

/-- Embedding of `impl Layout for Stepper`'s `add_subview`: it
unconditionally panics, touching nothing — the result records the panic,
the facade state as the call leaves it, and the native messages sent. The
argument view has arbitrary type `V`, matching the generic `V: Layout`
parameter. -/
def Stepper.add_subview {V : Type} (s : Stepper) (_view : V) :
    Except String Unit × Stepper × List StepperMsg :=
  (Except.error addSubviewPanicMsg, s, [])

/-- Embedding of `impl Layout for &Stepper`'s `add_subview`: same
unconditional panic as the owned variant. -/
def Stepper.add_subview_ref {V : Type} (s : Stepper) (_view : V) :
    Except String Unit × Stepper × List StepperMsg :=
  (Except.error addSubviewPanicMsg, s, [])

/-- The events observable while a `Stepper` is destroyed: native messages
sent by the drop body, the release of the retained handle, and the freeing
of the trampoline. -/
inductive DropEv
  | msg (m : StepperMsg)
  | releaseHandle
  | freeTrampoline (t : Nat)
deriving DecidableEq

/-- Embedding of `impl Drop for Stepper` plus Rust's field-drop order: the
drop body first clears the native target and action through `with_mut`;
afterwards the fields are dropped in declaration order — `objc` (releasing
the retained handle) before `handler` (freeing the trampoline when one is
installed, modelled from the spec since the `invoker` module is not part of
this fragment). -/
def Stepper.dropEvents (s : Stepper) : List DropEv :=
  [.msg (.setTarget nilId), .msg (.setAction none), .releaseHandle] ++
    (match s.handler with
    | some h => [.freeTrampoline h.addr]
    | none => [])

/-- The native object's state once the drop body has run, before the handle
itself is released. -/
def Stepper.dropRun (s : Stepper) : NSStepperState :=
  (s.objc.with_mut [.setTarget nilId, .setAction none]).obj

/-- A value is representable as a binary floating-point number with a
significand of at most `p` bits, the exponent unconstrained. -/
def floatRepr (p : Nat) (q : ℚ) : Prop :=
  ∃ m e : ℤ, m.natAbs ≤ 2 ^ p ∧ q = (m : ℚ) * (2 : ℚ) ^ e

/-- Well-formedness of a facade/trampoline-heap pair: recorded addresses
lie below the allocation counter (so fresh addresses are genuinely new) and
the installed handler, when present, likewise predates the counter. -/
def WFTramp (s : Stepper) (w : TrampWorld) : Prop :=
  (∀ a ∈ w.live, a < w.next) ∧ (∀ a ∈ w.freed, a < w.next) ∧
    (match s.handler with
    | none => True
    | some h => h.addr < w.next)

/-- C4: every successful construction yields a facade whose native widget
was allocated with a zero-sized initial frame, whose native handle is
non-null (a positive address) and retained for shared access, and — when
the autolayout capability is compiled in — whose
translates-autoresizing-mask-into-constraints flag is set to `NO`. -/
theorem new_allocates_configured (autolayout : Bool) (a : Nat) :
    0 < (Stepper.new autolayout a).1.objc.addr ∧
    (Stepper.new autolayout a).1.objc.retainCount = 1 ∧
    (Stepper.new autolayout a).1.objc.obj.frame = Rect.zero ∧
    (Stepper.new true a).1.objc.obj.translatesAutoresizingMaskIntoConstraints = NO := by
  refine ⟨Nat.succ_pos a, rfl, ?_, rfl⟩
  cases autolayout <;> rfl

/-- C5: each property setter forwards exactly the given value (booleans
marshalled to the `YES`/`NO` encoding) as a single property-setting message
through the synchronized mutable accessor, and does nothing else: the only
state change is that one stored property, and the trace is that one message. -/
theorem setters_forward_exactly (s : Stepper) (v : ℚ) (b : Bool) :
    s.set_max_value v =
      ({ s with objc := { s.objc with obj := { s.objc.obj with maxValue := v } } },
        [StepperMsg.setMaxValue v]) ∧
    s.set_min_value v =
      ({ s with objc := { s.objc with obj := { s.objc.obj with minValue := v } } },
        [StepperMsg.setMinValue v]) ∧
    s.set_increment v =
      ({ s with objc := { s.objc with obj := { s.objc.obj with increment := v } } },
        [StepperMsg.setIncrement v]) ∧
    s.set_wraps b =
      ({ s with objc := { s.objc with obj := { s.objc.obj with valueWraps := if b then YES else NO } } },
        [StepperMsg.setValueWraps (if b then YES else NO)]) := by
  refine ⟨rfl, rfl, rfl, ?_⟩
  cases b <;> rfl

/-- C6: setting the max, min, increment, or wraps property and then reading
the corresponding property back through the native accessor yields exactly
the value that was set — for every value, hence in particular for the
representative values max=100.0, min=0.0, increment=1.0, wraps=true. -/
theorem set_get_roundtrip (s : Stepper) (v : ℚ) :
    (s.set_max_value v).1.get_from_backing_obj (fun o => o.maxValue) = v ∧
    (s.set_min_value v).1.get_from_backing_obj (fun o => o.minValue) = v ∧
    (s.set_increment v).1.get_from_backing_obj (fun o => o.increment) = v ∧
    (s.set_wraps true).1.get_from_backing_obj (fun o => o.valueWraps) = YES :=
  ⟨rfl, rfl, rfl, rfl⟩

/-- C7: on a freshly constructed facade, `get_selected_value` returns the
native default 0.0; in general it is a side-effect-free forwarded read
(`floatValue` through the synchronized `get` accessor) of the current value
as a floating-point number. -/
theorem get_selected_value_default_and_pure (autolayout : Bool) (a : Nat) (s : Stepper) :
    (Stepper.new autolayout a).1.get_selected_value = 0 ∧
    s.get_selected_value = s.objc.obj.floatValue := by
  constructor
  · cases autolayout <;> rfl
  · rfl

/-- C3: calling `add_subview` on a stepper — through either the owned
facade variant or the referenced one, in any state, with any argument view
— always fails with the precondition-violation panic; it never returns
successfully. -/
theorem add_subview_always_panics {V : Type} (s : Stepper) (v : V) :
    (s.add_subview v).1 = Except.error addSubviewPanicMsg ∧
    (s.add_subview_ref v).1 = Except.error addSubviewPanicMsg :=
  ⟨rfl, rfl⟩

/-- C10: the `add_subview` panic happens before any mutation: on both
facade variants the facade state — including the stored trampoline — is
left exactly as it was and no native message is sent on this error path. -/
theorem add_subview_mutates_nothing {V : Type} (s : Stepper) (v : V) :
    (s.add_subview v).2.1 = s ∧ (s.add_subview v).2.2 = [] ∧
    (s.add_subview_ref v).2.1 = s ∧ (s.add_subview_ref v).2.2 = [] :=
  ⟨rfl, rfl, rfl, rfl⟩

/-- C1: on destruction the native object's target and action references are
cleared to nil first — at positions 0 and 1 of the drop event order —
strictly before the retained handle is released (position 2) and before the
trampoline is freed (position 3, when one is installed); the native state
after the drop body indeed holds nil target and action. -/
theorem drop_clears_before_release (s : Stepper) :
    s.dropEvents.indexOf (DropEv.msg (.setTarget nilId)) = 0 ∧
    s.dropEvents.indexOf (DropEv.msg (.setAction none)) = 1 ∧
    s.dropEvents.indexOf DropEv.releaseHandle = 2 ∧
    (∀ h, s.handler = some h → s.dropEvents.indexOf (DropEv.freeTrampoline h.addr) = 3) ∧
    s.dropRun.target = nilId ∧ s.dropRun.action = none := by
  refine ⟨rfl, rfl, rfl, ?_, rfl, rfl⟩
  intro h hh
  have hd : s.dropEvents = [DropEv.msg (.setTarget nilId), DropEv.msg (.setAction none),
      DropEv.releaseHandle, DropEv.freeTrampoline h.addr] := by
    simp [Stepper.dropEvents, hh]
  rw [hd]
  rw [List.indexOf_cons_ne _ (by simp), List.indexOf_cons_ne _ (by simp),
    List.indexOf_cons_ne _ (by simp), List.indexOf_cons_self]

/-- Witness for C1 at a concrete facade with an installed trampoline. -/
theorem drop_clears_before_release_witness :
    (Stepper.mk (ObjcProperty.retain 1 (initWithFrame Rect.zero))
      (some ⟨1, 7⟩)).dropEvents.indexOf (DropEv.freeTrampoline 1) = 3 :=
  (drop_clears_before_release _).2.2.2.1 ⟨1, 7⟩ rfl

theorem not_mem_of_forall_lt {l : List Nat} {n : Nat} (h : ∀ a ∈ l, a < n) : n ∉ l :=
  fun hm => lt_irrefl n (h n hm)

theorem count_zero_of_forall_lt {l : List Nat} {n : Nat} (h : ∀ a ∈ l, a < n) : l.count n = 0 :=
  List.count_eq_zero.mpr (not_mem_of_forall_lt h)

/-- C2: from any well-formed facade/heap pair, installing a callback and
then a second one replaces the stored trampoline with a new one — after
each call the facade's handler and the native target reference point
exactly to the trampoline just installed, so at most one trampoline is ever
active for the facade — and releases the previously installed trampoline
exactly once: after the second call the first trampoline is recorded freed
exactly once (no leak, no double free), it is no longer live, and the
second one is live. -/
theorem set_action_replaces_exactly_once (s : Stepper) (w : TrampWorld) (f g : Callback)
    (hw : WFTramp s w) :
    (s.set_action w f).1.handler = some ⟨w.next, f⟩ ∧
    (s.set_action w f).1.objc.obj.target = w.next ∧
    ((s.set_action w f).1.set_action (s.set_action w f).2.1 g).1.handler
      = some ⟨w.next + 1, g⟩ ∧
    ((s.set_action w f).1.set_action (s.set_action w f).2.1 g).1.objc.obj.target
      = w.next + 1 ∧
    ((s.set_action w f).1.set_action (s.set_action w f).2.1 g).2.1.freed.count w.next = 1 ∧
    w.next ∉ ((s.set_action w f).1.set_action (s.set_action w f).2.1 g).2.1.live ∧
    w.next + 1 ∈ ((s.set_action w f).1.set_action (s.set_action w f).2.1 g).2.1.live := by
  obtain ⟨hlive, hfreed, hh⟩ := hw
  have h2 : w.next ∉ w.live := not_mem_of_forall_lt hlive
  have h1 : w.freed.count w.next = 0 := count_zero_of_forall_lt hfreed
  have hsucc : w.next + 1 ≠ w.next := Nat.succ_ne_self _
  cases hs : s.handler with
  | none =>
    refine ⟨rfl, rfl, ?_, ?_, ?_, ?_, ?_⟩ <;>
      simp [Stepper.set_action, TargetActionHandler.new, TrampWorld.alloc, TrampWorld.free,
        ObjcProperty.with_mut, sendMsg, hs, List.count_cons, List.erase_cons, hsucc, h1, h2]
  | some old =>
    rw [hs] at hh
    have hne : old.addr ≠ w.next := Nat.ne_of_lt hh
    have hne2 : w.next ≠ old.addr := hne.symm
    have h3 : w.next ∉ w.live.erase old.addr :=
      fun hm => h2 (List.mem_of_mem_erase hm)
    refine ⟨rfl, rfl, ?_, ?_, ?_, ?_, ?_⟩ <;>
      simp [Stepper.set_action, TargetActionHandler.new, TrampWorld.alloc, TrampWorld.free,
        ObjcProperty.with_mut, sendMsg, hs, List.count_cons, List.erase_cons, hsucc, hne,
        hne2, h1, h2, h3, List.count_eq_zero]

/-- Witness for C2: two concrete `set_action` calls on a freshly built
facade free the first trampoline exactly once. -/
theorem set_action_replaces_witness :
    WFTramp (Stepper.new true 0).1 TrampWorld.init ∧
    (((Stepper.new true 0).1.set_action TrampWorld.init 10).1.set_action
      ((Stepper.new true 0).1.set_action TrampWorld.init 10).2.1 20).2.1.freed.count 1 = 1 := by
  have hw : WFTramp (Stepper.new true 0).1 TrampWorld.init :=
    ⟨by simp [TrampWorld.init], by simp [TrampWorld.init], trivial⟩
  exact ⟨hw, (set_action_replaces_exactly_once _ _ 10 20 hw).2.2.2.2.1⟩

theorem floatRepr_round32 (q : ℚ) : floatRepr 24 (round32 q) := by
  unfold round32
  split
  · exact ⟨0, 0, by simp, by simp⟩
  · refine ⟨_, _, ?_, rfl⟩
    have h1 : -(2 ^ 24 : ℤ) ≤
        max (-(2 ^ 24)) (min (2 ^ 24) (round (q * (2 : ℚ) ^ (-(Int.log 2 |q| - 23))))) :=
      le_max_left _ _
    have h2 : max (-(2 ^ 24 : ℤ))
        (min (2 ^ 24) (round (q * (2 : ℚ) ^ (-(Int.log 2 |q| - 23))))) ≤ 2 ^ 24 :=
      max_le (by norm_num) (min_le_left _ _)
    omega

theorem not_floatRepr24_16777217 : ¬ floatRepr 24 (16777217 : ℚ) := by
  rintro ⟨m, e, hm, he⟩
  norm_num at hm
  rcases e with n | n
  · rw [Int.ofNat_eq_natCast, zpow_natCast] at he
    have hez : (16777217 : ℤ) = m * 2 ^ n := by exact_mod_cast he
    cases n with
    | zero => simp at hez; omega
    | succ k =>
      have hdvd : (2 : ℤ) ∣ 16777217 := ⟨m * 2 ^ k, by rw [hez]; ring⟩
      omega
  · rw [zpow_negSucc] at he
    have hez : (16777217 : ℚ) * 2 ^ (n + 1) = (m : ℚ) := by
      rw [he]; field_simp
    have hz : (16777217 : ℤ) * 2 ^ (n + 1) = m := by exact_mod_cast hez
    have hp : (2 : ℤ) ≤ 2 ^ (n + 1) := by
      calc (2 : ℤ) = 2 ^ 1 := by norm_num
      _ ≤ 2 ^ (n + 1) := by
          apply pow_le_pow_right₀ <;> omega
    have hge : (33554434 : ℤ) ≤ m := by
      have := mul_le_mul_of_nonneg_left hp (by norm_num : (0:ℤ) ≤ 16777217)
      omega
    omega

/-- C9: `get_selected_value` reads the current value narrowed to single
precision — its result is always representable with a 24-bit significand,
whereas the property setters forward full-width values — and consequently a
current value that is not exactly representable in single precision is
never read back exactly. -/
theorem get_selected_value_single_precision (s : Stepper) :
    floatRepr 24 s.get_selected_value ∧
    (¬ floatRepr 24 s.objc.obj.doubleValue →
      s.get_selected_value ≠ s.objc.obj.doubleValue) := by
  refine ⟨floatRepr_round32 _, fun hnr heq => hnr ?_⟩
  rw [← heq]
  exact floatRepr_round32 _

/-- Witness for C9: the value 16777217 is representable as a double
(53-bit significand) but not as a single-precision float, and a facade
whose current value is 16777217 does not read it back exactly. -/
theorem get_selected_value_single_precision_witness :
    floatRepr 53 (16777217 : ℚ) ∧
    ¬ floatRepr 24 (16777217 : ℚ) ∧
    (Stepper.mk (ObjcProperty.retain 1
        { initWithFrame Rect.zero with doubleValue := 16777217 }) none).get_selected_value
      ≠ (16777217 : ℚ) := by
  refine ⟨⟨16777217, 0, by norm_num, by norm_num⟩, not_floatRepr24_16777217, ?_⟩
  exact (get_selected_value_single_precision _).2 not_floatRepr24_16777217

end Cacao
